import Mathlib

/-!
Shallow embedding of the real-time fraud analytics engine
(`src/fraud_detector.py`, class `FraudDetector`) for verification of its
natural-language specification.

Modelling conventions:
* Python `float` scores and amounts are embedded as `ℚ`.
* `datetime` timestamps are embedded as `Int` (seconds); `timedelta(hours=1)`
  is 3600, `timedelta(days=1)` is 86400, `timedelta(days=7)` is 604800.
* Python dictionaries keyed by strings are embedded as functions
  `String → Option _` (or `Option String → Option _` where the code can cache
  under the key `None`, which `dict.get` produces for a missing field).
* Exceptions are embedded as `Except String`; methods that can both mutate
  shared state and raise return `Except String α × State` so that mutations
  that happen before the raise are preserved, exactly as in Python.
* Ambient nondeterminism (`np.random...` calls) is embedded as explicit
  oracle inputs: the metadata the simulated DynamoDB lookup would synthesise
  is given by generator functions (each id is synthesised at most once per
  run, so a function of the id is adequate), and the geographic-anomaly draw
  `np.random.random()` is an explicit rational argument.
* The external collaborators (feature engineering and the two models) are
  black boxes per the spec; they are oracle functions from the enriched
  transaction to a score.
-/

namespace FraudAnalytics

/-- `timedelta(hours=1)` in seconds. -/
def one_hour : Int := 3600

/-- `timedelta(days=1)` in seconds. -/
def one_day : Int := 86400

/-- `timedelta(days=7)` in seconds: the history retention window. -/
def seven_days : Int := 604800

/-- One entry of `self.transaction_history[user_id]`: the dict
`{'timestamp': ..., 'amount': ..., 'merchant_id': ...}` appended by
`update_transaction_history`. -/
structure HistRecord where
  timestamp : Int
  amount : ℚ
  merchant_id : Option String
deriving Repr, DecidableEq

/-- `self.transaction_history`: per-user list of recent records. -/
def HistMap : Type := String → Option (List HistRecord)

/-- The user-metadata dict synthesised/cached by `enrich_transaction`. -/
structure UserMetadata where
  account_age_days : Int
  total_transactions : Int
  avg_transaction_amount : ℚ
  country : String
  is_verified : Bool
deriving Repr, DecidableEq

/-- The merchant-metadata dict synthesised/cached by `enrich_transaction`. -/
structure MerchantMetadata where
  merchant_category : String
  risk_score : ℚ
  is_verified : Bool
deriving Repr, DecidableEq

/-- The `timestamp` field of a raw transaction: either an ISO string still to
be parsed or an already-parsed datetime. -/
inductive TsField where
  | str (s : String)
  | dt (t : Int)
deriving Repr, DecidableEq

/-- A raw transaction dict. Every field can be absent (`Option`), matching
`transaction.get(...)` / `KeyError` behaviour in the source. -/
structure Transaction where
  transaction_id : Option String
  user_id : Option String
  merchant_id : Option String
  amount : Option ℚ
  timestamp : Option TsField
deriving Repr, DecidableEq

/-- The shared mutable state of a `FraudDetector` instance: transaction
history plus the two metadata caches. Metadata caches are keyed by
`Option String` because `transaction.get('user_id')` yields `None` for a
missing field and the code then caches under the key `None`. -/
structure DetectorState where
  transaction_history : HistMap
  user_metadata : Option String → Option UserMetadata
  merchant_metadata : Option String → Option MerchantMetadata

/-- The detector configuration set in `FraudDetector.__init__`. -/
structure Config where
  xgboost_weight : ℚ
  autoencoder_weight : ℚ
  fraud_threshold : ℚ
  high_risk_threshold : ℚ
deriving Repr, DecidableEq

/-- The velocity-feature dict returned by `calculate_velocity_features`. -/
structure VelocityFeatures where
  txn_count_1h : Nat
  txn_count_24h : Nat
  txn_count_7d : Nat
  total_amount_1h : ℚ
  total_amount_24h : ℚ
  total_amount_7d : ℚ
  avg_amount_24h : ℚ
deriving Repr, DecidableEq

/-- `FraudDetector.calculate_velocity_features(user_id, current_time)`:
returns all-zero statistics for an unseen user, otherwise filters the user's
history by the three trailing windows (`t['timestamp'] >= window_start`) and
aggregates; the 24h average is guarded against an empty window
(`np.mean([...]) if txns_24h else 0.0`). -/
def calculate_velocity_features (hist : HistMap) (user_id : String)
    (current_time : Int) : VelocityFeatures :=
  match hist user_id with
  | none =>
    { txn_count_1h := 0, txn_count_24h := 0, txn_count_7d := 0
      total_amount_1h := 0, total_amount_24h := 0, total_amount_7d := 0
      avg_amount_24h := 0 }
  | some history =>
    let one_hour_ago := current_time - one_hour
    let one_day_ago := current_time - one_day
    let seven_days_ago := current_time - seven_days
    let txns_1h := history.filter (fun t => decide (one_hour_ago ≤ t.timestamp))
    let txns_24h := history.filter (fun t => decide (one_day_ago ≤ t.timestamp))
    let txns_7d := history.filter (fun t => decide (seven_days_ago ≤ t.timestamp))
    { txn_count_1h := txns_1h.length
      txn_count_24h := txns_24h.length
      txn_count_7d := txns_7d.length
      total_amount_1h := (txns_1h.map (fun t => t.amount)).sum
      total_amount_24h := (txns_24h.map (fun t => t.amount)).sum
      total_amount_7d := (txns_7d.map (fun t => t.amount)).sum
      avg_amount_24h :=
        if txns_24h.isEmpty then 0
        else (txns_24h.map (fun t => t.amount)).sum / (txns_24h.length : ℚ) }

/-- `FraudDetector.update_transaction_history(user_id, transaction)`.
The Python method first ensures `self.transaction_history[user_id]` exists
(creating an empty list), then appends
`{'timestamp', 'amount', 'merchant_id'}` — evaluating `transaction['amount']`
raises `KeyError` before the append, but after the empty list was created —
then evicts records older than `transaction['timestamp'] - timedelta(days=7)`
by keeping `t['timestamp'] >= cutoff`. The returned pair is
(outcome, history-after-the-call). -/
def update_transaction_history (hist : HistMap) (user_id : String)
    (ts : Int) (amount : Option ℚ) (merchant_id : Option String) :
    Except String Unit × HistMap :=
  let ensured : HistMap := fun u =>
    if u = user_id then some ((hist user_id).getD []) else hist u
  match amount with
  | none => (Except.error "KeyError: amount", ensured)
  | some a =>
    let appended := ((hist user_id).getD []) ++
      [{ timestamp := ts, amount := a, merchant_id := merchant_id }]
    let cutoff := ts - seven_days
    let kept := appended.filter (fun t => decide (cutoff ≤ t.timestamp))
    (Except.ok (), fun u => if u = user_id then some kept else hist u)

/-- The enriched transaction handed to the external collaborators and to
`_identify_risk_factors`: the raw fields plus cached metadata plus the
velocity features merged in by `enriched_txn.update(velocity_features)`. -/
structure EnrichedTxn where
  user_id : Option String
  merchant_id : Option String
  amount : Option ℚ
  timestamp : Int
  user_metadata : UserMetadata
  merchant_metadata : MerchantMetadata
  velocity : VelocityFeatures
deriving Repr, DecidableEq

/-- One rule of `_identify_risk_factors`: `if <predicate>:
factors.append(<msg>)` — appends at most one string when the predicate
holds. -/
def rule_step (factors : List String) (fires : Bool) (msg : String) :
    List String :=
  if fires then factors ++ [msg] else factors

/-- `FraudDetector._identify_risk_factors(transaction, features)`: the fixed
rule cascade from the source, each `if cond: factors.append(msg)` embedded
as a `rule_step`. `amount` defaults to 0 (`transaction.get`), the metadata
is always present on the enriched transaction, and the final
geographic-anomaly rule fires when the ambient draw `np.random.random()` is
below 0.1; `geo_rand` is that draw made explicit. -/
def identify_risk_factors (t : EnrichedTxn) (geo_rand : ℚ) : List String :=
  let amount := t.amount.getD 0
  let avg_amount := t.velocity.avg_amount_24h
  let factors : List String := []
  let factors :=
    if avg_amount > 0 ∧ amount > avg_amount * 3 then
      factors ++ ["Unusual transaction amount (3x average)"]
    else if amount > 1000 then factors ++ ["High transaction amount"]
    else factors
  let factors := rule_step factors (decide (t.velocity.txn_count_1h > 5))
    "High velocity spending (>5 txns/hour)"
  let factors := rule_step factors (decide (t.merchant_metadata.risk_score > 7/10))
    "High-risk merchant"
  let factors := rule_step factors (!t.merchant_metadata.is_verified)
    "Unverified merchant"
  let factors := rule_step factors (decide (t.user_metadata.account_age_days < 30))
    "New user account (<30 days)"
  let factors := rule_step factors (!t.user_metadata.is_verified)
    "Unverified user account"
  let factors := rule_step factors (decide (geo_rand < 1/10))
    "Geographic anomaly detected"
  if factors = [] then ["No specific risk factors identified"] else factors

/-- Step 5 of `predict`: the ensemble score
`xgboost_weight * xgboost_score + autoencoder_weight * autoencoder_score`
(no clamping appears in the source). -/
def ensemble_score (cfg : Config) (xgboost_score autoencoder_score : ℚ) : ℚ :=
  cfg.xgboost_weight * xgboost_score + cfg.autoencoder_weight * autoencoder_score

/-- Step 6 of `predict`: `is_fraud = fraud_score >= self.fraud_threshold`. -/
def decide_is_fraud (cfg : Config) (fraud_score : ℚ) : Bool :=
  decide (cfg.fraud_threshold ≤ fraud_score)

/-- Step 6 of `predict`: the `if / elif / else` risk-tier cascade. -/
def classify_risk (cfg : Config) (fraud_score : ℚ) : String :=
  if cfg.high_risk_threshold ≤ fraud_score then "HIGH"
  else if cfg.fraud_threshold ≤ fraud_score then "MEDIUM"
  else "LOW"

/-- The ambient external world of one run, made explicit: the ISO-8601
parser (`datetime.fromisoformat`, `none` = it raises `ValueError`), the
simulated-DynamoDB metadata generators (each id is synthesised at most once
per run because the cache stores on first miss, so a pre-drawn function of
the id is an adequate model of the random draws), and the two external
scoring collaborators composed with feature extraction. -/
structure Oracles where
  parseIso : String → Option Int
  genUser : Option String → UserMetadata
  genMerchant : Option String → MerchantMetadata
  xgbScore : EnrichedTxn → ℚ
  aeScore : EnrichedTxn → ℚ

/-- The result dict returned by `FraudDetector.predict` (the wall-clock
`processing_time_ms` field is not modelled). -/
structure PredictResult where
  transaction_id : String
  fraud_score : ℚ
  xgboost_score : ℚ
  autoencoder_score : ℚ
  is_fraud : Bool
  risk_level : String
  risk_factors : List String
  timestamp : Int
deriving Repr, DecidableEq

/-- The timestamp-normalisation prologue of `predict`: an ISO string is
parsed (raising on failure), a missing timestamp defaults to
`datetime.now()`, an already-parsed datetime is kept. -/
def parse_timestamp (oc : Oracles) (txn : Transaction) (now : Int) :
    Except String Int :=
  match txn.timestamp with
  | some (TsField.str s) =>
    match oc.parseIso s with
    | some t => Except.ok t
    | none => Except.error "ValueError: invalid isoformat string"
  | some (TsField.dt t) => Except.ok t
  | none => Except.ok now

/-- The cache-or-create pattern of `enrich_transaction`: a hit returns the
cached value and leaves the cache untouched; a miss synthesises a value,
stores it under the key and returns it. -/
def cache_get_or_insert {α : Type} (cache : Option String → Option α)
    (key : Option String) (gen : Option String → α) :
    α × (Option String → Option α) :=
  match cache key with
  | some v => (v, cache)
  | none =>
    let v := gen key
    (v, fun k => if k = key then some v else cache k)

/-- `FraudDetector.enrich_transaction(transaction)`: fills/reads the user
and merchant metadata caches (keyed by `transaction.get(...)`, hence
possibly by `None`) and returns the metadata pair together with the
mutated state. -/
def enrich_transaction (oc : Oracles) (txn : Transaction)
    (st : DetectorState) : (UserMetadata × MerchantMetadata) × DetectorState :=
  let u := cache_get_or_insert st.user_metadata txn.user_id oc.genUser
  let m := cache_get_or_insert st.merchant_metadata txn.merchant_id oc.genMerchant
  ((u.1, m.1),
   { st with user_metadata := u.2, merchant_metadata := m.2 })

/-- `FraudDetector.predict(transaction)`: the full pipeline in source
order — normalise timestamp (may raise), enrich (mutates the metadata
caches), read `transaction['user_id']` (raises `KeyError` if absent, after
the enrichment mutations), compute velocity features, score through the
external collaborators, ensemble + classify, identify risk factors, append
to history (may raise `KeyError` on a missing amount, after ensuring the
user's history list exists), and build the result. Returns
(outcome, state-after-the-call). -/
def predict (cfg : Config) (oc : Oracles) (txn : Transaction) (now : Int)
    (geo_rand : ℚ) (st : DetectorState) :
    Except String PredictResult × DetectorState :=
  match parse_timestamp oc txn now with
  | Except.error e => (Except.error e, st)
  | Except.ok ts =>
    let er := enrich_transaction oc txn st
    let st1 := er.2
    match txn.user_id with
    | none => (Except.error "KeyError: user_id", st1)
    | some uid =>
      let vf := calculate_velocity_features st1.transaction_history uid ts
      let etx : EnrichedTxn :=
        { user_id := txn.user_id, merchant_id := txn.merchant_id
          amount := txn.amount, timestamp := ts
          user_metadata := er.1.1, merchant_metadata := er.1.2
          velocity := vf }
      let xgboost_score := oc.xgbScore etx
      let autoencoder_score := oc.aeScore etx
      let fraud_score := ensemble_score cfg xgboost_score autoencoder_score
      let upd := update_transaction_history st1.transaction_history uid ts
        txn.amount txn.merchant_id
      let st2 := { st1 with transaction_history := upd.2 }
      match upd.1 with
      | Except.error e => (Except.error e, st2)
      | Except.ok _ =>
        (Except.ok
          { transaction_id := txn.transaction_id.getD "UNKNOWN"
            fraud_score := fraud_score
            xgboost_score := xgboost_score
            autoencoder_score := autoencoder_score
            is_fraud := decide_is_fraud cfg fraud_score
            risk_level := classify_risk cfg fraud_score
            risk_factors := identify_risk_factors etx geo_rand
            timestamp := ts },
         st2)

/-- One slot of the list returned by `batch_predict`: either a full result
or the error dict `{'transaction_id': ..., 'error': ..., 'is_fraud': None}`
(no numeric scores). -/
inductive BatchSlot where
  | success (result : PredictResult)
  | failure (transaction_id : String) (err : String)
deriving Repr, DecidableEq

/-- `FraudDetector.batch_predict(transactions)`: processes the list in
order, catching per-item exceptions and emitting an error slot built from
`txn.get('transaction_id', 'UNKNOWN')` and the exception text. `env i`
supplies the ambient `datetime.now()` value and geographic-anomaly random
draw of the i-th call. -/
def batch_predict (cfg : Config) (oc : Oracles) (env : Nat → Int × ℚ)
    (txns : List Transaction) (st : DetectorState) :
    List BatchSlot × DetectorState :=
  match txns with
  | [] => ([], st)
  | txn :: rest =>
    let pr := predict cfg oc txn (env 0).1 (env 0).2 st
    let slot := match pr.1 with
      | Except.ok result => BatchSlot.success result
      | Except.error e => BatchSlot.failure (txn.transaction_id.getD "UNKNOWN") e
    let tail := batch_predict cfg oc (fun i => env (i + 1)) rest pr.2
    (slot :: tail.1, tail.2)

/-- The severity order LOW < MEDIUM < HIGH on risk tiers, used to state
tier monotonicity. -/
def risk_severity (tier : String) : Nat :=
  if tier = "HIGH" then 2 else if tier = "MEDIUM" then 1 else 0

/-! ### Concrete fixtures used by witnesses and counterexamples -/

/-- A freshly constructed detector: all three shared maps empty. -/
def empty_state : DetectorState :=
  { transaction_history := fun _ => none
    user_metadata := fun _ => none
    merchant_metadata := fun _ => none }

/-- The default configuration from `FraudDetector.__init__`: weights
0.7/0.3, fraud threshold 0.5, high-risk threshold 0.75. -/
def cfg₀ : Config :=
  { xgboost_weight := 7/10, autoencoder_weight := 3/10
    fraud_threshold := 1/2, high_risk_threshold := 3/4 }

/-- An unremarkable user profile (verified, old account). -/
def plain_user_meta : UserMetadata :=
  { account_age_days := 365, total_transactions := 100
    avg_transaction_amount := 100, country := "US", is_verified := true }

/-- An unremarkable merchant profile (verified, low risk). -/
def plain_merchant_meta : MerchantMetadata :=
  { merchant_category := "retail", risk_score := 1/2
    is_verified := true }

/-- An oracle world whose scorers return the constants `xgb` and `ae` and
whose metadata generators return the plain profiles. -/
def oracles_const (xgb ae : ℚ) : Oracles :=
  { parseIso := fun _ => none
    genUser := fun _ => plain_user_meta
    genMerchant := fun _ => plain_merchant_meta
    xgbScore := fun _ => xgb
    aeScore := fun _ => ae }

/-- Spec scenario transaction: entity `U1`, no prior history, amount 150. -/
def txn_U1 : Transaction :=
  { transaction_id := some "T1", user_id := some "U1"
    merchant_id := some "M1", amount := some 150
    timestamp := some (TsField.dt 1000) }

/-- A transaction whose ISO timestamp string fails to parse. -/
def txn_bad_ts : Transaction :=
  { transaction_id := some "TBAD", user_id := some "U1"
    merchant_id := some "M1", amount := some 50
    timestamp := some (TsField.str "not-a-date") }

/-- A transaction with no `user_id` field (raises `KeyError` in `predict`
after enrichment has already populated the metadata caches). -/
def txn_no_user : Transaction :=
  { transaction_id := some "T7", user_id := none
    merchant_id := some "M1", amount := some 50
    timestamp := some (TsField.dt 1000) }

/-- The all-zero velocity record of an unseen entity. -/
def zero_velocity : VelocityFeatures :=
  { txn_count_1h := 0, txn_count_24h := 0, txn_count_7d := 0
    total_amount_1h := 0, total_amount_24h := 0
    total_amount_7d := 0, avg_amount_24h := 0 }

/-- The enriched transaction `predict` builds for `txn_U1` on a fresh
detector: plain metadata, zero velocity. -/
def etx_U1 : EnrichedTxn :=
  { user_id := some "U1", merchant_id := some "M1", amount := some 150
    timestamp := 1000, user_metadata := plain_user_meta
    merchant_metadata := plain_merchant_meta, velocity := zero_velocity }

/-- The result `predict` returns for `txn_U1` on a fresh detector under
configuration `cfg` when the component scorers return `xgb` and `ae` and
the geographic draw is `geo`, with the score-derived fields left
symbolic. -/
def res_of (cfg : Config) (xgb ae geo : ℚ) : PredictResult :=
  { transaction_id := "T1", fraud_score := ensemble_score cfg xgb ae
    xgboost_score := xgb, autoencoder_score := ae
    is_fraud := decide_is_fraud cfg (ensemble_score cfg xgb ae)
    risk_level := classify_risk cfg (ensemble_score cfg xgb ae)
    risk_factors := identify_risk_factors etx_U1 geo
    timestamp := 1000 }

/-- An enriched transaction that fires none of the deterministic rules, so
only the random geographic-anomaly rule can contribute. -/
def etx_plain : EnrichedTxn :=
  { user_id := some "U1", merchant_id := some "M1", amount := some 150
    timestamp := 1000, user_metadata := plain_user_meta
    merchant_metadata := plain_merchant_meta
    velocity := zero_velocity }

/-- Spec scenario `U2`: exactly six records, all within the hour before
time 10000. -/
def hist_U2 : List HistRecord :=
  [⟨9990, 10, none⟩, ⟨9900, 20, none⟩, ⟨9800, 30, none⟩,
   ⟨9700, 40, none⟩, ⟨9600, 50, none⟩, ⟨9500, 60, none⟩]

/-- History store holding `hist_U2` for entity `U2`. -/
def hist_map_U2 : HistMap := fun u => if u = "U2" then some hist_U2 else none

/-- The enriched form of `U2`'s seventh transaction, its velocity computed
from the six stored records (the current transaction not yet appended). -/
def etx_U2 : EnrichedTxn :=
  { user_id := some "U2", merchant_id := some "M1", amount := some 150
    timestamp := 10000, user_metadata := plain_user_meta
    merchant_metadata := plain_merchant_meta
    velocity := calculate_velocity_features hist_map_U2 "U2" 10000 }

/-- The transaction-id of a batch slot, success or failure alike. -/
def slot_transaction_id : BatchSlot → String
  | BatchSlot.success r => r.transaction_id
  | BatchSlot.failure tid _ => tid

/-- The error carried by a batch slot: `none` for a success slot. -/
def slot_error : BatchSlot → Option String
  | BatchSlot.success _ => none
  | BatchSlot.failure _ e => some e

/-! ### Shared helper lemmas -/

/-- Inversion for a successful `predict`: the result's fields satisfy the
ensemble/threshold equations of steps 5 and 6 of the pipeline. -/
theorem predict_ok_fields (cfg : Config) (oc : Oracles) (txn : Transaction)
    (now : Int) (geo : ℚ) (st : DetectorState) (res : PredictResult)
    (h : (predict cfg oc txn now geo st).1 = Except.ok res) :
    res.fraud_score = ensemble_score cfg res.xgboost_score res.autoencoder_score ∧
    res.is_fraud = decide_is_fraud cfg res.fraud_score ∧
    res.risk_level = classify_risk cfg res.fraud_score ∧
    res.transaction_id = txn.transaction_id.getD "UNKNOWN" := by
  unfold predict at h
  split at h
  · simp at h
  · split at h
    · simp at h
    · dsimp only at h
      split at h
      · simp at h
      · rw [Except.ok.injEq] at h
        subst h
        exact ⟨rfl, rfl, rfl, rfl⟩

/-- Structural evaluation of `predict` on `txn_U1` over a fresh detector:
the pipeline succeeds and returns `res_of cfg xgb ae geo`; the rational
arithmetic stays symbolic. -/
theorem predict_txn_U1_eval (cfg : Config) (xgb ae geo : ℚ) :
    (predict cfg (oracles_const xgb ae) txn_U1 1000 geo empty_state).1 =
      Except.ok (res_of cfg xgb ae geo) := rfl

/-- Case analysis of the risk-tier cascade. -/
theorem classify_risk_cases (cfg : Config) (s : ℚ) :
    (cfg.high_risk_threshold ≤ s → classify_risk cfg s = "HIGH") ∧
    (cfg.fraud_threshold ≤ s ∧ s < cfg.high_risk_threshold →
      classify_risk cfg s = "MEDIUM") ∧
    (s < cfg.fraud_threshold ∧ s < cfg.high_risk_threshold →
      classify_risk cfg s = "LOW") := by
  unfold classify_risk
  refine ⟨fun h => if_pos h, fun h => ?_, fun h => ?_⟩
  · rw [if_neg (not_le.mpr h.2), if_pos h.1]
  · rw [if_neg (not_le.mpr h.2), if_neg (not_le.mpr h.1)]

/-- Membership survives a rule step. -/
theorem mem_rule_step (x msg : String) (factors : List String) (b : Bool)
    (h : x ∈ factors) : x ∈ rule_step factors b msg := by
  unfold rule_step
  split
  · exact List.mem_append_left _ h
  · exact h

/-- A rule that fires contributes its message. -/
theorem mem_rule_step_self (msg : String) (factors : List String) :
    msg ∈ rule_step factors true msg := by
  unfold rule_step
  rw [if_pos rfl]
  exact List.mem_append_right _ (List.mem_singleton_self _)

/-- Membership survives the final no-factors sentinel guard. -/
theorem mem_sentinel_guard (x : String) (l l' : List String) (h : x ∈ l) :
    x ∈ (if l = [] then l' else l) := by
  rw [if_neg (List.ne_nil_of_mem h)]
  exact h

/-- The risk tier is monotone in the score, for any thresholds: a larger
score never gets a strictly less severe tier. -/
theorem risk_severity_monotone (cfg : Config) (s1 s2 : ℚ) (h : s1 ≤ s2) :
    risk_severity (classify_risk cfg s1) ≤
      risk_severity (classify_risk cfg s2) := by
  unfold classify_risk
  by_cases h1 : cfg.high_risk_threshold ≤ s1
  · rw [if_pos h1, if_pos (h1.trans h)]
  · rw [if_neg h1]
    by_cases h2 : cfg.fraud_threshold ≤ s1
    · rw [if_pos h2]
      by_cases h3 : cfg.high_risk_threshold ≤ s2
      · rw [if_pos h3]
        simp [risk_severity]
      · rw [if_neg h3, if_pos (h2.trans h)]
    · rw [if_neg h2]
      have : risk_severity "LOW" = 0 := rfl
      rw [this]
      exact Nat.zero_le _

/-- In every batch, the i-th slot carries the i-th input transaction's id
(default `UNKNOWN`), for success and failure slots alike: order and count
are preserved. -/
theorem batch_slot_ids (cfg : Config) (oc : Oracles) (env : Nat → Int × ℚ)
    (txns : List Transaction) (st : DetectorState) :
    (batch_predict cfg oc env txns st).1.map slot_transaction_id =
      txns.map (fun t => t.transaction_id.getD "UNKNOWN") := by
  induction txns generalizing env st with
  | nil => rfl
  | cons t rest ih =>
    simp only [batch_predict, List.map_cons]
    congr 1
    · cases hp : (predict cfg oc t (env 0).1 (env 0).2 st).1 with
      | error e => simp [slot_transaction_id, hp]
      | ok r =>
        simp only [hp, slot_transaction_id]
        exact (predict_ok_fields cfg oc t (env 0).1 (env 0).2 st r hp).2.2.2
    · exact ih _ _

/-! ### Claims -/

/-- C1 counterexample: `predict` does not clamp the ensemble score. With
the default weights 0.7/0.3 and both component scorers returning the
out-of-range value 2 (which §7 of the spec says the engine must clamp),
the returned `fraud_score` is 2, outside [0,1]. -/
theorem C1_no_clamp_counterexample :
    ((predict cfg₀ (oracles_const 2 2) txn_U1 1000 (1/2)
        empty_state).1.map (fun r => r.fraud_score)) = Except.ok 2 ∧
    ¬ ((2 : ℚ) ≤ 1) := by
  constructor
  · rw [predict_txn_U1_eval]
    simp only [Except.map, res_of]
    norm_num [ensemble_score, cfg₀]
  · norm_num

/-- C1 (amended): the ensemble score of every result returned by `predict`
is the raw, unclamped weighted combination
`xgboost_weight*xgboost_score + autoencoder_weight*autoencoder_score`; it
lies in [0,1] whenever that weighted sum does — in particular for
nonnegative weights summing to at most 1 and component scores in [0,1] —
but the engine itself performs no clamping. -/
theorem C1_ensemble_weighted_sum (cfg : Config) (oc : Oracles)
    (txn : Transaction) (now : Int) (geo : ℚ) (st : DetectorState)
    (res : PredictResult)
    (h : (predict cfg oc txn now geo st).1 = Except.ok res) :
    res.fraud_score = cfg.xgboost_weight * res.xgboost_score +
      cfg.autoencoder_weight * res.autoencoder_score ∧
    (0 ≤ cfg.xgboost_weight → 0 ≤ cfg.autoencoder_weight →
      cfg.xgboost_weight + cfg.autoencoder_weight ≤ 1 →
      0 ≤ res.xgboost_score → res.xgboost_score ≤ 1 →
      0 ≤ res.autoencoder_score → res.autoencoder_score ≤ 1 →
      0 ≤ res.fraud_score ∧ res.fraud_score ≤ 1) := by
  have hf := (predict_ok_fields cfg oc txn now geo st res h).1
  rw [ensemble_score] at hf
  refine ⟨hf, fun hw1 hw2 hws hx0 hx1 ha0 ha1 => ?_⟩
  rw [hf]
  constructor
  · exact add_nonneg (mul_nonneg hw1 hx0) (mul_nonneg hw2 ha0)
  · nlinarith

/-- Witness for C1 at the default configuration with in-range component
scores 0.9 and 0.2: ensemble 0.69 equals the weighted sum and lies in
[0,1]. -/
theorem C1_ensemble_weighted_sum_witness :
    (res_of cfg₀ (9/10) (2/10) (1/2)).fraud_score =
      cfg₀.xgboost_weight * (res_of cfg₀ (9/10) (2/10) (1/2)).xgboost_score +
      cfg₀.autoencoder_weight *
        (res_of cfg₀ (9/10) (2/10) (1/2)).autoencoder_score ∧
    (0 ≤ (res_of cfg₀ (9/10) (2/10) (1/2)).fraud_score ∧
      (res_of cfg₀ (9/10) (2/10) (1/2)).fraud_score ≤ 1) :=
  ⟨(C1_ensemble_weighted_sum cfg₀ (oracles_const (9/10) (2/10)) txn_U1 1000
      (1/2) empty_state (res_of cfg₀ (9/10) (2/10) (1/2))
      (predict_txn_U1_eval cfg₀ (9/10) (2/10) (1/2))).1,
   (C1_ensemble_weighted_sum cfg₀ (oracles_const (9/10) (2/10)) txn_U1 1000
      (1/2) empty_state (res_of cfg₀ (9/10) (2/10) (1/2))
      (predict_txn_U1_eval cfg₀ (9/10) (2/10) (1/2))).2
      (by norm_num [cfg₀]) (by norm_num [cfg₀]) (by norm_num [cfg₀])
      (by norm_num [res_of]) (by norm_num [res_of]) (by norm_num [res_of])
      (by norm_num [res_of])⟩

/-- C2: the two spec scenarios under weights 0.7/0.3 and thresholds
0.5/0.75 — scores (0.9, 0.2) give ensemble 0.69, tier MEDIUM, fraud flag
true, and scores (0.95, 0.9) give ensemble 0.935, tier HIGH — and, in
general, every successful `predict` result has tier HIGH when the score
reaches the high-risk threshold, MEDIUM when it reaches the fraud
threshold but not the high-risk threshold, LOW otherwise, with the fraud
flag holding exactly when the score reaches the fraud threshold. -/
theorem C2_scenarios_and_tier_rule :
    (((predict cfg₀ (oracles_const (9/10) (2/10)) txn_U1 1000 (1/2)
        empty_state).1.map
        (fun r => (r.fraud_score, r.risk_level, r.is_fraud))) =
      Except.ok (69/100, "MEDIUM", true)) ∧
    (((predict cfg₀ (oracles_const (19/20) (9/10)) txn_U1 1000 (1/2)
        empty_state).1.map
        (fun r => (r.fraud_score, r.risk_level))) =
      Except.ok (187/200, "HIGH")) ∧
    (∀ (cfg : Config) (oc : Oracles) (txn : Transaction) (now : Int)
      (geo : ℚ) (st : DetectorState) (res : PredictResult),
      (predict cfg oc txn now geo st).1 = Except.ok res →
      ((cfg.high_risk_threshold ≤ res.fraud_score →
          res.risk_level = "HIGH") ∧
       (cfg.fraud_threshold ≤ res.fraud_score ∧
          res.fraud_score < cfg.high_risk_threshold →
          res.risk_level = "MEDIUM") ∧
       (res.fraud_score < cfg.fraud_threshold ∧
          res.fraud_score < cfg.high_risk_threshold →
          res.risk_level = "LOW") ∧
       (res.is_fraud = true ↔ cfg.fraud_threshold ≤ res.fraud_score))) := by
  refine ⟨?_, ?_, ?_⟩
  · rw [predict_txn_U1_eval]
    simp only [Except.map, res_of]
    norm_num [ensemble_score, cfg₀, decide_is_fraud, classify_risk]
  · rw [predict_txn_U1_eval]
    simp only [Except.map, res_of]
    norm_num [ensemble_score, cfg₀, decide_is_fraud, classify_risk]
  intro cfg oc txn now geo st res h
  obtain ⟨-, hfraud, hlevel, -⟩ := predict_ok_fields cfg oc txn now geo st res h
  obtain ⟨c1, c2, c3⟩ := classify_risk_cases cfg res.fraud_score
  rw [hlevel, hfraud]
  refine ⟨c1, c2, c3, ?_⟩
  unfold decide_is_fraud
  simp

/-- Witness for C2's general tier rule, instantiated at scenario A:
0.5 ≤ 0.69 < 0.75 gives tier MEDIUM and the fraud flag. -/
theorem C2_scenarios_and_tier_rule_witness :
    (res_of cfg₀ (9/10) (2/10) (1/2)).risk_level = "MEDIUM" ∧
    ((res_of cfg₀ (9/10) (2/10) (1/2)).is_fraud = true ↔
      cfg₀.fraud_threshold ≤ (res_of cfg₀ (9/10) (2/10) (1/2)).fraud_score) :=
  ⟨(C2_scenarios_and_tier_rule.2.2 cfg₀ (oracles_const (9/10) (2/10)) txn_U1
      1000 (1/2) empty_state (res_of cfg₀ (9/10) (2/10) (1/2))
      (predict_txn_U1_eval cfg₀ (9/10) (2/10) (1/2))).2.1
      ⟨by norm_num [res_of, ensemble_score, cfg₀],
       by norm_num [res_of, ensemble_score, cfg₀]⟩,
   (C2_scenarios_and_tier_rule.2.2 cfg₀ (oracles_const (9/10) (2/10)) txn_U1
      1000 (1/2) empty_state (res_of cfg₀ (9/10) (2/10) (1/2))
      (predict_txn_U1_eval cfg₀ (9/10) (2/10) (1/2))).2.2.2⟩

/-- C10: when `fraud_threshold ≤ high_risk_threshold`, every successful
`predict` result has its fraud flag set exactly when its tier is not LOW;
and with the thresholds inverted (fraud 0.8, high-risk 0.3) a score of 0.5
is classified HIGH with the fraud flag false, so the consistency is indeed
not guaranteed then. -/
theorem C10_flag_tier_consistency :
    (∀ (cfg : Config) (oc : Oracles) (txn : Transaction) (now : Int)
      (geo : ℚ) (st : DetectorState) (res : PredictResult),
      cfg.fraud_threshold ≤ cfg.high_risk_threshold →
      (predict cfg oc txn now geo st).1 = Except.ok res →
      (res.is_fraud = true ↔ res.risk_level ≠ "LOW")) ∧
    (((predict ⟨7/10, 3/10, 4/5, 3/10⟩ (oracles_const (1/2) (1/2)) txn_U1
        1000 (1/2) empty_state).1.map
        (fun r => (r.fraud_score, r.risk_level, r.is_fraud))) =
      Except.ok (1/2, "HIGH", false)) := by
  constructor
  · intro cfg oc txn now geo st res hth h
    obtain ⟨-, hfraud, hlevel, -⟩ := predict_ok_fields cfg oc txn now geo st res h
    rw [hfraud, hlevel]
    unfold decide_is_fraud classify_risk
    by_cases h1 : cfg.high_risk_threshold ≤ res.fraud_score
    · simp [h1, le_trans hth h1]
    · by_cases h2 : cfg.fraud_threshold ≤ res.fraud_score
      · simp [h1, h2]
      · simp [h1, h2]
  · rw [predict_txn_U1_eval]
    simp only [Except.map, res_of]
    norm_num [ensemble_score, decide_is_fraud, classify_risk,
      decide_eq_false_iff_not]

/-- Witness for C10's consistency direction at scenario A under the
default (well-ordered) thresholds. -/
theorem C10_flag_tier_consistency_witness :
    (res_of cfg₀ (9/10) (2/10) (1/2)).is_fraud = true ↔
      (res_of cfg₀ (9/10) (2/10) (1/2)).risk_level ≠ "LOW" :=
  C10_flag_tier_consistency.1 cfg₀ (oracles_const (9/10) (2/10)) txn_U1 1000
    (1/2) empty_state (res_of cfg₀ (9/10) (2/10) (1/2)) (by norm_num [cfg₀])
    (predict_txn_U1_eval cfg₀ (9/10) (2/10) (1/2))

/-- C4 counterexample: with a negative configured weight (-1 on the first
model, thresholds -0.75 and -0.5), raising the first component score from 0 to
1 with the second held at 0 drops the ensemble score of the returned
result from 0 to -1 and the tier from HIGH to LOW — so over all fixed
weight configurations the claimed monotonicity fails. -/
theorem C4_negative_weight_counterexample :
    ((predict ⟨-1, 0, -3/4, -1/2⟩ (oracles_const 0 0) txn_U1 1000 (1/2)
        empty_state).1.map (fun r => (r.fraud_score, r.risk_level))) =
      Except.ok (0, "HIGH") ∧
    ((predict ⟨-1, 0, -3/4, -1/2⟩ (oracles_const 1 0) txn_U1 1000 (1/2)
        empty_state).1.map (fun r => (r.fraud_score, r.risk_level))) =
      Except.ok (-1, "LOW") ∧
    ((-1 : ℚ) < 0 ∧ risk_severity "LOW" < risk_severity "HIGH") := by
  refine ⟨?_, ?_, by norm_num, by decide⟩
  · rw [predict_txn_U1_eval]
    simp only [Except.map, res_of]
    norm_num [ensemble_score, classify_risk]
  · rw [predict_txn_U1_eval]
    simp only [Except.map, res_of]
    norm_num [ensemble_score, classify_risk]

/-- C4 (amended): for fixed nonnegative weights and any thresholds,
raising either component score (the other not decreased) never decreases
the ensemble score and never moves the tier to a strictly lower severity
(LOW < MEDIUM < HIGH). With a negative weight this fails, as the
counterexample shows. -/
theorem C4_monotone_for_nonneg_weights (cfg : Config)
    (hw1 : 0 ≤ cfg.xgboost_weight) (hw2 : 0 ≤ cfg.autoencoder_weight)
    (x x' a a' : ℚ) (hx : x ≤ x') (ha : a ≤ a') :
    ensemble_score cfg x a ≤ ensemble_score cfg x' a' ∧
    risk_severity (classify_risk cfg (ensemble_score cfg x a)) ≤
      risk_severity (classify_risk cfg (ensemble_score cfg x' a')) := by
  have hle : ensemble_score cfg x a ≤ ensemble_score cfg x' a' :=
    add_le_add (mul_le_mul_of_nonneg_left hx hw1)
      (mul_le_mul_of_nonneg_left ha hw2)
  exact ⟨hle, risk_severity_monotone cfg _ _ hle⟩

/-- Witness for C4 at the default weights: raising the first score from
0.1 to 0.9 with the second fixed at 0.2 does not lower score or tier. -/
theorem C4_monotone_for_nonneg_weights_witness :
    ensemble_score cfg₀ (1/10) (2/10) ≤ ensemble_score cfg₀ (9/10) (2/10) ∧
    risk_severity (classify_risk cfg₀ (ensemble_score cfg₀ (1/10) (2/10))) ≤
      risk_severity (classify_risk cfg₀ (ensemble_score cfg₀ (9/10) (2/10))) :=
  C4_monotone_for_nonneg_weights cfg₀ (by norm_num [cfg₀])
    (by norm_num [cfg₀]) (1/10) (9/10) (2/10) (2/10) (by norm_num)
    (le_refl _)

/-- C5 counterexample: the explainer is not a function of the enriched
transaction alone — on the identical enriched transaction, the run whose
ambient geographic draw is 0.05 reports the geographic-anomaly factor
while the run whose draw is 0.5 reports the no-factors sentinel. -/
theorem C5_random_draw_counterexample :
    identify_risk_factors etx_plain (1/20) ≠
      identify_risk_factors etx_plain (1/2) ∧
    identify_risk_factors etx_plain (1/20) =
      ["Geographic anomaly detected"] ∧
    identify_risk_factors etx_plain (1/2) =
      ["No specific risk factors identified"] := by
  have h1 : identify_risk_factors etx_plain (1/20) =
      ["Geographic anomaly detected"] := by
    norm_num [identify_risk_factors, rule_step, etx_plain, plain_user_meta,
      plain_merchant_meta, zero_velocity]
  have h2 : identify_risk_factors etx_plain (1/2) =
      ["No specific risk factors identified"] := by
    norm_num [identify_risk_factors, rule_step, etx_plain, plain_user_meta,
      plain_merchant_meta, zero_velocity]
  refine ⟨?_, h1, h2⟩
  rw [h1, h2]
  simp

/-- C5 (amended): the explainer is deterministic in the enriched
transaction together with the ambient geographic draw, and depends on the
draw only through the `< 0.1` test: two invocations on the same enriched
transaction whose draws fall on the same side of 0.1 produce identical
lists. -/
theorem C5_deterministic_given_draw (t : EnrichedTxn) (r1 r2 : ℚ)
    (h : r1 < 1/10 ↔ r2 < 1/10) :
    identify_risk_factors t r1 = identify_risk_factors t r2 := by
  have e1 : decide (r1 < 1/10) = decide (r2 < 1/10) := by
    by_cases hr : r1 < 1/10
    · rw [decide_eq_true hr, decide_eq_true (h.mp hr)]
    · rw [decide_eq_false hr, decide_eq_false (fun hc => hr (h.mpr hc))]
  unfold identify_risk_factors
  rw [e1]

/-- Witness for C5 at draws 0.5 and 0.75, both at or above the 0.1
threshold: the outputs agree. -/
theorem C5_deterministic_given_draw_witness :
    identify_risk_factors etx_plain (1/2) =
      identify_risk_factors etx_plain (3/4) :=
  C5_deterministic_given_draw etx_plain (1/2) (3/4) (by norm_num)

/-- C6: every batch returns exactly one slot per input transaction, in
input order (the i-th slot carries the i-th transaction's id for success
and failure slots alike), and a failing item yields an error slot without
aborting the rest: on the batch [unparsable-timestamp transaction, good
transaction], the first slot is the error slot and the second a success
slot. -/
theorem C6_batch_order_and_isolation :
    (∀ (cfg : Config) (oc : Oracles) (env : Nat → Int × ℚ)
       (txns : List Transaction) (st : DetectorState),
       (batch_predict cfg oc env txns st).1.length = txns.length) ∧
    (∀ (cfg : Config) (oc : Oracles) (env : Nat → Int × ℚ)
       (txns : List Transaction) (st : DetectorState),
       (batch_predict cfg oc env txns st).1.map slot_transaction_id =
         txns.map (fun t => t.transaction_id.getD "UNKNOWN")) ∧
    ((batch_predict cfg₀ (oracles_const (9/10) (2/10))
        (fun _ => (1000, 1/2)) [txn_bad_ts, txn_U1] empty_state).1.map
        slot_error =
      [some "ValueError: invalid isoformat string", none]) ∧
    ((batch_predict cfg₀ (oracles_const (9/10) (2/10))
        (fun _ => (1000, 1/2)) [txn_bad_ts, txn_U1] empty_state).1.map
        slot_transaction_id = ["TBAD", "T1"]) := by
  refine ⟨?_, batch_slot_ids, rfl, rfl⟩
  intro cfg oc env txns st
  have h := congrArg List.length (batch_slot_ids cfg oc env txns st)
  simpa using h

/-- C7 counterexample: a `predict` call rejected for a missing entity id
does mutate shared state — on a fresh detector, the call on a transaction
without `user_id` fails with `KeyError` yet leaves a new entry in the
merchant-metadata cache (the enrichment step ran before the error). -/
theorem C7_mutation_on_error_counterexample :
    (predict cfg₀ (oracles_const (9/10) (2/10)) txn_no_user 1000 (1/2)
      empty_state).1 = Except.error "KeyError: user_id" ∧
    empty_state.merchant_metadata (some "M1") = none ∧
    (predict cfg₀ (oracles_const (9/10) (2/10)) txn_no_user 1000 (1/2)
      empty_state).2.merchant_metadata (some "M1") =
      some plain_merchant_meta :=
  ⟨rfl, rfl, rfl⟩

/-- C7 (amended): a `predict` call rejected at timestamp parsing leaves
the whole detector state unchanged; but a call that fails after enrichment
(e.g. missing `user_id`) has already populated the metadata caches — the
transaction history is unchanged on that path while the user-metadata
cache holds an entry under the `None` key. -/
theorem C7_error_isolation_partial :
    (∀ (cfg : Config) (oc : Oracles) (txn : Transaction) (now : Int)
       (geo : ℚ) (st : DetectorState) (s : String),
       txn.timestamp = some (TsField.str s) → oc.parseIso s = none →
       predict cfg oc txn now geo st =
         (Except.error "ValueError: invalid isoformat string", st)) ∧
    (∀ (cfg : Config) (oc : Oracles) (txn : Transaction) (now : Int)
       (geo : ℚ) (st : DetectorState) (ts : Int),
       txn.user_id = none → txn.timestamp = some (TsField.dt ts) →
       (predict cfg oc txn now geo st).1 =
         Except.error "KeyError: user_id" ∧
       (predict cfg oc txn now geo st).2.transaction_history =
         st.transaction_history ∧
       ((predict cfg oc txn now geo st).2.user_metadata none).isSome =
         true) := by
  constructor
  · intro cfg oc txn now geo st s hts hp
    simp only [predict, parse_timestamp, hts, hp]
  · intro cfg oc txn now geo st ts hu hts
    refine ⟨by simp only [predict, parse_timestamp, hts, hu],
            by simp only [predict, parse_timestamp, hts, hu,
              enrich_transaction],
            ?_⟩
    simp only [predict, parse_timestamp, hts, hu, enrich_transaction,
      cache_get_or_insert]
    cases hm : st.user_metadata none with
    | some v => simp [hm]
    | none => simp [hm]

/-- Witness for C7's unchanged-state direction: the unparsable-timestamp
transaction is rejected and the fresh detector state is returned intact. -/
theorem C7_error_isolation_partial_witness :
    predict cfg₀ (oracles_const (9/10) (2/10)) txn_bad_ts 1000 (1/2)
      empty_state =
      (Except.error "ValueError: invalid isoformat string", empty_state) :=
  C7_error_isolation_partial.1 cfg₀ (oracles_const (9/10) (2/10)) txn_bad_ts
    1000 (1/2) empty_state "not-a-date" rfl rfl

/-- C8 counterexample: with exactly six stored records inside the hour
before the current transaction (the current one not yet appended), the
aggregator reports `txn_count_1h = 6`, not 7 as the claim states. -/
theorem C8_velocity_count_counterexample :
    (hist_U2.filter
      (fun q => decide ((10000 : Int) - one_hour ≤ q.timestamp))).length =
      6 ∧
    (calculate_velocity_features hist_map_U2 "U2" 10000).txn_count_1h = 6 ∧
    ¬ ((calculate_velocity_features hist_map_U2 "U2" 10000).txn_count_1h =
      7) :=
  ⟨by decide, rfl, by decide⟩

/-- C8 (amended): with exactly six records in the preceding hour (current
transaction not yet appended) the aggregator reports `txn_count_1h = 6`,
and since 6 exceeds the 5-per-hour rule the explainer includes the
high-velocity factor for that transaction. -/
theorem C8_high_velocity_scenario (hist : HistMap) (uid : String) (ts : Int)
    (history : List HistRecord) (hh : hist uid = some history)
    (h6 : (history.filter
      (fun q => decide (ts - one_hour ≤ q.timestamp))).length = 6)
    (t : EnrichedTxn)
    (hv : t.velocity = calculate_velocity_features hist uid ts) (geo : ℚ) :
    (calculate_velocity_features hist uid ts).txn_count_1h = 6 ∧
    "High velocity spending (>5 txns/hour)" ∈ identify_risk_factors t geo := by
  have hc : (calculate_velocity_features hist uid ts).txn_count_1h = 6 := by
    simp only [calculate_velocity_features, hh]
    exact h6
  refine ⟨hc, ?_⟩
  have hgt : t.velocity.txn_count_1h > 5 := by
    rw [hv, hc]
    norm_num
  unfold identify_risk_factors
  dsimp only
  rw [decide_eq_true hgt]
  apply mem_sentinel_guard
  apply mem_rule_step
  apply mem_rule_step
  apply mem_rule_step
  apply mem_rule_step
  apply mem_rule_step
  exact mem_rule_step_self _ _

/-- Witness for C8 at the concrete `U2` scenario: six records in the hour
before time 10000, a seventh transaction arriving at 10000. -/
theorem C8_high_velocity_scenario_witness :
    (calculate_velocity_features hist_map_U2 "U2" 10000).txn_count_1h = 6 ∧
    "High velocity spending (>5 txns/hour)" ∈
      identify_risk_factors etx_U2 (1/2) :=
  C8_high_velocity_scenario hist_map_U2 "U2" 10000 hist_U2 rfl (by decide)
    etx_U2 rfl (1/2)

/-- C3: after `update_transaction_history(E, transaction)` completes for an
appended transaction with timestamp `now`, every record retained in E's
history has a timestamp at least `now - 7 days`: eviction is eager on every
append. -/
theorem C3_eviction_after_append (hist : HistMap) (user_id : String)
    (now : Int) (amount : ℚ) (merchant_id : Option String) (r : HistRecord)
    (hmem : r ∈ ((update_transaction_history hist user_id now (some amount)
      merchant_id).2 user_id).getD []) :
    now - seven_days ≤ r.timestamp := by
  simp only [update_transaction_history, if_pos, Option.getD_some,
    List.mem_filter, decide_eq_true_eq] at hmem
  exact hmem.2

/-- Witness for C3 at a concrete input: appending a record at time 1000 to
a history containing a stale record leaves only in-window records; the
fresh record itself is retained and satisfies the bound. -/
theorem C3_eviction_after_append_witness :
    (1000 : Int) - seven_days ≤
      (⟨1000, 150, some "M1"⟩ : HistRecord).timestamp :=
  C3_eviction_after_append
    (fun u => if u = "U1" then some [⟨-700000, 20, none⟩] else none)
    "U1" 1000 150 (some "M1") ⟨1000, 150, some "M1"⟩ (by decide)

/-- C9: velocity features for an unseen entity are all zero and produced
without error, and whenever the 24-hour window is empty the 24h average is
0 rather than the mean of an empty list. -/
theorem C9_zero_stats_for_empty_history :
    (∀ (hist : HistMap) (uid : String) (t : Int), hist uid = none →
      calculate_velocity_features hist uid t =
        { txn_count_1h := 0, txn_count_24h := 0, txn_count_7d := 0
          total_amount_1h := 0, total_amount_24h := 0, total_amount_7d := 0
          avg_amount_24h := 0 }) ∧
    (∀ (hist : HistMap) (uid : String) (t : Int)
      (history : List HistRecord), hist uid = some history →
      history.filter (fun q => decide (t - one_day ≤ q.timestamp)) = [] →
      (calculate_velocity_features hist uid t).avg_amount_24h = 0) := by
  constructor
  · intro hist uid t h
    simp only [calculate_velocity_features, h]
  · intro hist uid t history h hf
    simp only [calculate_velocity_features, h, hf]
    simp

/-- Witness for C9 at concrete inputs: a never-seen entity yields the zero
record, and an entity whose only record is far older than 24 hours yields a
zero 24h average. -/
theorem C9_zero_stats_for_empty_history_witness :
    calculate_velocity_features (fun _ => none) "U9" 0 =
      { txn_count_1h := 0, txn_count_24h := 0, txn_count_7d := 0
        total_amount_1h := 0, total_amount_24h := 0, total_amount_7d := 0
        avg_amount_24h := 0 } ∧
    (calculate_velocity_features
      (fun u => if u = "U8" then some [⟨-500000, 5, none⟩] else none)
      "U8" 0).avg_amount_24h = 0 :=
  ⟨C9_zero_stats_for_empty_history.1 (fun _ => none) "U9" 0 rfl,
   C9_zero_stats_for_empty_history.2
     (fun u => if u = "U8" then some [⟨-500000, 5, none⟩] else none)
     "U8" 0 [⟨-500000, 5, none⟩] rfl (by decide)⟩

end FraudAnalytics
